import Mathlib

/-!
# Verification of the SQL string-builder (`sql.py`)

Shallow embedding of the repository's value-coercion functions
(`proper_type`, `cast_types`), the `Where` filter accumulator and the
`SqlCreatorAlpha` fluent statement builder, together with proofs settling
the specification claims about them.

Modelling conventions:
* Python runtime values handed to the coercion functions are embedded as
  the inductive `Value`.  A float is carried as its `isnan` flag plus the
  text Python's `str()` produces for it; a dict is carried as the text
  `json.dumps` produces for it; a datetime is carried as its `str()` text.
* Python's `bool` is a subclass of `int`: the `isinstance_int` predicate
  is true on booleans, exactly as `isinstance(value, int)` is in Python.
* `proper_type` returns `str | int` in Python (and sometimes the value
  itself, e.g. for `int` without `force_str` and for datetimes); this is
  embedded as `PyRet`: either a produced string or the original value.
* Fallible Python code (the `ValueError` raised by
  `columns, values = zip(*d.items())` on an empty dict) returns `Except`.
-/

/-- Embedded Python runtime value, as dispatched on by `proper_type` /
`cast_types` via `isinstance`. -/
inductive Value where
  | none
  | str (s : String)
  | int (n : Int)
  | bool (b : Bool)
  /-- a float, carried as its `isnan` flag and its `str()` text -/
  | float (isNan : Bool) (txt : String)
  /-- a dict, carried as its `json.dumps` serialization -/
  | dict (json : String)
  /-- a datetime, carried as its `str()` text -/
  | datetime (txt : String)
  /-- any other value, carried as its `str()` text -/
  | other (txt : String)
deriving DecidableEq, Repr

/-- `isinstance(value, str)` -/
def isinstance_str : Value → Bool
  | .str _ => true
  | _ => false

/-- `isinstance(value, int)`.  True on booleans as well: Python's `bool`
is a subclass of `int`. -/
def isinstance_int : Value → Bool
  | .int _ => true
  | .bool _ => true
  | _ => false

/-- `isinstance(value, bool)` -/
def isinstance_bool : Value → Bool
  | .bool _ => true
  | _ => false

/-- `isinstance(value, float)` -/
def isinstance_float : Value → Bool
  | .float _ _ => true
  | _ => false

/-- `isinstance(value, dict)` -/
def isinstance_dict : Value → Bool
  | .dict _ => true
  | _ => false

/-- `is_datetime(obj)` from the source (an `isinstance(obj, datetime)` check). -/
def is_datetime : Value → Bool
  | .datetime _ => true
  | _ => false

/-- Python `str(value)` / f-string interpolation `f"{value}"` on an
embedded value.  (`str(True) = "True"`, `str(None) = "None"`; dict and
datetime values are carried as their textual forms.) -/
def pyStr : Value → String
  | .none => "None"
  | .str s => s
  | .int n => toString n
  | .bool b => if b then "True" else "False"
  | .float _ t => t
  | .dict j => j
  | .datetime t => t
  | .other t => t

/-- Payload of a `Value.str` (only read under `isinstance_str`). -/
def strVal : Value → String
  | .str s => s
  | _ => ""

/-- The `isnan` flag of a float (only read under `isinstance_float`). -/
def floatNan : Value → Bool
  | .float b _ => b
  | _ => false

/-- Payload of a `Value.dict` (only read under `isinstance_dict`),
i.e. the `json.dumps(value)` text. -/
def dictJson : Value → String
  | .dict j => j
  | _ => ""

/-- Result of `proper_type`: Python returns either a built string or the
original value itself (declared `str | int` in the source). -/
inductive PyRet where
  | s (t : String)
  | v (val : Value)
deriving DecidableEq, Repr

/-- Embedding of `proper_type(value, force_str=False)` (src/sql.py lines
355-383), with the source's branch order kept: the `isinstance(value, int)`
test precedes the `isinstance(value, bool)` test, so booleans are handled
by the integer branch and the boolean branch is unreachable. -/
def proper_type (value : Value) (force_str : Bool) : PyRet :=
  if value = Value.none then .s "NULL"
  else if isinstance_str value then
    if (strVal value).toLower = "null" then .s "NULL"
    else if strVal value = "" then .s "NULL"
    else if force_str then .s ("'" ++ strVal value ++ "'")
    else .s (strVal value)
  else if isinstance_int value then
    if force_str then .s (pyStr value)
    else .v value
  else if isinstance_float value then
    if force_str then
      (if floatNan value then .s "NULL" else .s ("'" ++ pyStr value ++ "'"))
    else
      (if floatNan value then .s "NULL" else .s (pyStr value))
  else if isinstance_bool value then .s (pyStr value)
  else if isinstance_dict value then
    if force_str then .s ("'" ++ dictJson value ++ "'")
    else .s (dictJson value)
  else if is_datetime value then .v value
  else if force_str then .s ("'" ++ pyStr value ++ "'")
  else .s (pyStr value)

/-- Embedding of `cast_types(value)` (src/sql.py lines 336-352), branch
order kept: booleans satisfy the `isinstance(value, int)` test first, so
the dedicated boolean branch is unreachable. -/
def cast_types (value : Value) : String :=
  if isinstance_str value then "CAST('" ++ strVal value ++ "' AS TEXT)"
  else if isinstance_int value then "CAST(" ++ pyStr value ++ " AS INTEGER)"
  else if isinstance_float value then "CAST(" ++ pyStr value ++ " AS FLOAT)"
  else if isinstance_bool value then "CAST(" ++ pyStr value ++ " AS BOOLEAN)"
  else if isinstance_dict value then "CAST('" ++ dictJson value ++ "' AS JSONB)"
  else "CAST('" ++ pyStr value ++ "' AS TEXT)"

/-- Python `str()` applied to the result of `proper_type` (used when the
builder interpolates a stored assignment value into an f-string). -/
def pyStrRet : PyRet → String
  | .s t => t
  | .v v => pyStr v

/-- Python `repr()` of a `proper_type` result, as used inside
`str(tuple)`: strings are single-quote wrapped, other values print as
their textual form. -/
def pyReprRet : PyRet → String
  | .s t => "'" ++ t ++ "'"
  | .v v => pyStr v

/-- Python `str()` of a tuple of values: parenthesised, comma-separated
element `repr`s, with the one-element trailing comma. -/
def tupleRepr (l : List PyRet) : String :=
  "(" ++ String.intercalate ", " (l.map pyReprRet) ++
    (if l.length = 1 then ",)" else ")")

/-- C6: for every NaN float, `proper_type` collapses it to `NULL` in both
coercion modes — the `forceQuoted` flag only affects the non-NaN numeral
text, never the NaN collapse. -/
theorem claim_C6 (txt : String) (force_str : Bool) :
    proper_type (Value.float true txt) force_str = PyRet.s "NULL" := by
  cases force_str <;> rfl

/-- C4 counterexample: `proper_type` on the boolean `True` does not return
the textual form `true` for either value of `forceQuoted`: booleans fall
into the integer branch, which returns the raw value when `forceQuoted`
is off and Python's capitalised text `True` when it is on. -/
theorem claim_C4_counterexample :
    proper_type (Value.bool true) false = PyRet.v (Value.bool true) ∧
    proper_type (Value.bool true) true = PyRet.s "True" ∧
    proper_type (Value.bool true) false ≠ PyRet.s "true" ∧
    proper_type (Value.bool true) true ≠ PyRet.s "true" := by
  refine ⟨rfl, rfl, ?_, ?_⟩ <;> decide

/-- C4 amended: booleans are handled by the integer branch of the default
coercion (Python's `bool` is a subclass of `int`, so the dedicated boolean
branch is unreachable).  With `forceQuoted` the result is Python's textual
form `True`/`False`, unquoted; without `forceQuoted` the boolean value
itself is returned unchanged.  In neither mode is the result wrapped in
quotes. -/
theorem claim_C4 (b : Bool) :
    proper_type (Value.bool b) true = PyRet.s (if b then "True" else "False") ∧
    proper_type (Value.bool b) false = PyRet.v (Value.bool b) := by
  cases b <;> exact ⟨rfl, rfl⟩

/-- C5 counterexample: `cast_types` on the boolean `True` produces an
INTEGER cast, not a BOOLEAN cast: the `isinstance(value, int)` branch
captures booleans before the boolean branch is reached. -/
theorem claim_C5_counterexample :
    cast_types (Value.bool true) = "CAST(True AS INTEGER)" ∧
    cast_types (Value.bool true) ≠ "CAST(True AS BOOLEAN)" ∧
    cast_types (Value.bool true) ≠ "CAST(true AS BOOLEAN)" := by
  refine ⟨rfl, ?_, ?_⟩ <;> decide

/-- C5 amended: `cast_types` renders `CAST(<literal> AS <SQLTYPE>)` with
TEXT for text, INTEGER for integers *and for booleans* (the boolean branch
is shadowed because Python's `bool` is a subclass of `int`), FLOAT for
floats, JSONB for JSON-like mappings, and TEXT for `None`, datetimes and
any unrecognized type. -/
theorem claim_C5 (v : Value) :
    cast_types v =
      match v with
      | .str s => "CAST('" ++ s ++ "' AS TEXT)"
      | .int n => "CAST(" ++ toString n ++ " AS INTEGER)"
      | .bool b => "CAST(" ++ (if b then "True" else "False") ++ " AS INTEGER)"
      | .float _ t => "CAST(" ++ t ++ " AS FLOAT)"
      | .dict j => "CAST('" ++ j ++ "' AS JSONB)"
      | .none => "CAST('None' AS TEXT)"
      | .datetime t => "CAST('" ++ t ++ "' AS TEXT)"
      | .other t => "CAST('" ++ t ++ "' AS TEXT)" := by
  cases v <;> rfl

/-- A fragment of the filter accumulator (class `Where`): either a bare
predicate string, or an `(operator, predicate)` pair appended by
`and_where` / `or_where`. -/
inductive Frag where
  | bare (cond : String)
  | joined (op : String) (cond : String)
deriving DecidableEq, Repr

/-- One rendering step of the `__repr__` loop over `_where_conditions`:
a bare fragment emits `"<cond> "`, a pair emits `"<op> <cond> "`. -/
def fragText : Frag → String
  | .bare cond => cond ++ " "
  | .joined op cond => op ++ " " ++ cond ++ " "

/-- The `__repr__` loop over the filter accumulator: successive
`query += ...` appends over the fragments, in order. -/
def renderFrags (l : List Frag) : String :=
  l.foldl (fun acc f => acc ++ fragText f) ""

/-- `WhereError` (src/sql.py lines 304-309): the missing-filter error. -/
inductive RenderError where
  | whereError (message : String)
deriving DecidableEq, Repr

/-- `QueryError` (src/sql.py lines 312-319): invalid raw query. -/
inductive QueryError where
  | queryError (message : String)
deriving DecidableEq, Repr

/-- A raised Python runtime error (the `ValueError` from tuple unpacking). -/
inductive PyError where
  | valueError (message : String)
deriving DecidableEq, Repr

/-- The message of the `WhereError` raised by `__repr__`. -/
def whereErrorMessage : String :=
  "\nIt seems you forgot to use .where method.\nTo turn off this exception set .ignore_errors = True"

/-- State of a `SqlCreatorAlpha` builder (src/sql.py lines 512-532),
field for field: the clause accumulators, the `_limit`/`_having`
modifiers, the tolerance flag `_ignore_errors` and the destructive flag
`__danger_query` (here `_danger_query`), plus the `_where_conditions`
accumulator inherited from `Where`. -/
structure SqlCreatorAlpha where
  _schema : String
  _table : String
  dot : String
  query : String
  _select_columns : List String
  _insert_columns : List String
  _insert_values : List (List PyRet)
  _update_columns : List String
  _set_values : List (List PyRet)
  _with_constructions : List String
  _order_by_columns : List String
  _order_by_state : String
  _group_by_columns : List String
  _join_clauses : List String
  _returning : String
  _limit : Int
  _having : String
  _ignore_errors : Bool
  _danger_query : Bool
  _where_conditions : List Frag
deriving DecidableEq, Repr

/-- `_dot()`: `'.'` unless the schema is empty. -/
def dotOf (schema : String) : String :=
  if schema = "" then "" else "."

namespace SqlCreatorAlpha

/-- `SqlCreatorAlpha.__init__`: schema defaults to `'banks'`, table to
`''`, `ignore_errors` to `False`; every accumulator starts empty. -/
def init (schema table : String) (ignore_errors : Bool) : SqlCreatorAlpha :=
  { _schema := schema, _table := table, dot := dotOf schema, query := "",
    _select_columns := [], _insert_columns := [], _insert_values := [],
    _update_columns := [], _set_values := [], _with_constructions := [],
    _order_by_columns := [], _order_by_state := "", _group_by_columns := [],
    _join_clauses := [], _returning := "", _limit := 0, _having := "",
    _ignore_errors := ignore_errors, _danger_query := false,
    _where_conditions := [] }

/-- `Where.where`: append a bare fragment. (`where` is reserved in Lean.) -/
def where' (b : SqlCreatorAlpha) (condition : String) : SqlCreatorAlpha :=
  { b with _where_conditions := b._where_conditions ++ [Frag.bare condition] }

/-- `Where.and_where`: append an `('AND', condition)` pair. -/
def and_where (b : SqlCreatorAlpha) (condition : String) : SqlCreatorAlpha :=
  { b with _where_conditions := b._where_conditions ++ [Frag.joined "AND" condition] }

/-- `Where.or_where`: append an `('OR', condition)` pair. -/
def or_where (b : SqlCreatorAlpha) (condition : String) : SqlCreatorAlpha :=
  { b with _where_conditions := b._where_conditions ++ [Frag.joined "OR" condition] }

/-- `Where.in_where`: append the bare fragment
`<column> IN (<comma-joined str(value)s>)`. -/
def in_where (b : SqlCreatorAlpha) (column : String) (values : List Value) : SqlCreatorAlpha :=
  { b with _where_conditions := b._where_conditions ++
      [Frag.bare (column ++ " IN (" ++ String.intercalate "," (values.map pyStr) ++ ")")] }

/-- `Where.is_where`: append the bare fragment `<column> IS <value>`. -/
def is_where (b : SqlCreatorAlpha) (column : String) (value : Value) : SqlCreatorAlpha :=
  { b with _where_conditions := b._where_conditions ++
      [Frag.bare (column ++ " IS " ++ pyStr value)] }

/-- `_build_select`: if the select accumulator is empty, `"*"` is appended
to it (the source mutates the accumulator), then the
`SELECT ... FROM schema.table ` clause text is stored in `query`. -/
def _build_select (b : SqlCreatorAlpha) : SqlCreatorAlpha :=
  let b := if b._select_columns.isEmpty then { b with _select_columns := ["*"] } else b
  { b with query := "SELECT " ++ String.intercalate ", " b._select_columns ++
      " FROM " ++ b._schema ++ dotOf b._schema ++ b._table ++ " " }

/-- `select(*args)`: extend the select accumulator, rebuild the clause. -/
def select (b : SqlCreatorAlpha) (args : List String) : SqlCreatorAlpha :=
  _build_select { b with _select_columns := b._select_columns ++ args }

/-- `_build_insert`: the INSERT clause text; `str(v)` on each stored row
is Python's tuple repr. -/
def _build_insert (b : SqlCreatorAlpha) : SqlCreatorAlpha :=
  let query :=
    if b._insert_columns ≠ [] then
      "INSERT INTO " ++ b._schema ++ dotOf b._schema ++ b._table ++ " (" ++
        String.intercalate ", " b._insert_columns ++ ") " ++
        "VALUES " ++ String.intercalate ", " (b._insert_values.map tupleRepr) ++ " "
    else ""
  { b with query := query }

/-- `insert(column_values, **c_v)`.  The argument is the merged dict
`{**column_values, **c_v}` as its ordered item list; the loop replaces
every value by `proper_type(v)` (default coercion), then
`columns, values = zip(*d.items())` — which raises
`ValueError: not enough values to unpack` when the dict is empty. -/
def insert (b : SqlCreatorAlpha) (d0 : List (String × Value)) :
    Except PyError SqlCreatorAlpha :=
  let d := d0.map (fun kv => (kv.1, proper_type kv.2 false))
  if d.isEmpty then
    Except.error (PyError.valueError "not enough values to unpack (expected 2, got 0)")
  else
    Except.ok (_build_insert { b with
      _insert_columns := b._insert_columns ++ d.map Prod.fst,
      _insert_values := b._insert_values ++ [d.map Prod.snd] })

/-- `_build_set`: the `UPDATE ... SET ...` clause text, zipping the whole
accumulated column list against `self._set_values[0]` — the FIRST stored
row (`zip` truncates at the shorter list).  `_build_set` is only invoked
right after `set` appends a row, so the row list is never empty there;
the `[0]` subscript is embedded as `headD []`.  Sets the destructive
flag. -/
def _build_set (b : SqlCreatorAlpha) : SqlCreatorAlpha :=
  let assignments :=
    (b._update_columns.zip (b._set_values.headD [])).map
      (fun cv => cv.1 ++ "=" ++ pyStrRet cv.2)
  { b with
    query := "UPDATE " ++ b._schema ++ dotOf b._schema ++ b._table ++ " " ++
      "SET " ++ String.intercalate ", " assignments ++ " ",
    _danger_query := true }

/-- `set(column_values, **c_v)`: like `insert` but with
`proper_type(v, force_str=True)`; appends the coerced row, extends the
column list, rebuilds the SET clause.  Raises the same `ValueError` on an
empty dict. -/
def set (b : SqlCreatorAlpha) (d0 : List (String × Value)) :
    Except PyError SqlCreatorAlpha :=
  let d := d0.map (fun kv => (kv.1, proper_type kv.2 true))
  if d.isEmpty then
    Except.error (PyError.valueError "not enough values to unpack (expected 2, got 0)")
  else
    Except.ok (_build_set { b with
      _update_columns := b._update_columns ++ d.map Prod.fst,
      _set_values := b._set_values ++ [d.map Prod.snd] })

/-- `update` is an alias for `set`. -/
def update (b : SqlCreatorAlpha) (d0 : List (String × Value)) :
    Except PyError SqlCreatorAlpha :=
  b.set d0

/-- `_build_delete`: the DELETE clause text; sets the destructive flag. -/
def _build_delete (b : SqlCreatorAlpha) : SqlCreatorAlpha :=
  { b with
    query := "DELETE FROM " ++ b._schema ++ dotOf b._schema ++ b._table ++ " ",
    _danger_query := true }

/-- `delete()`. -/
def delete (b : SqlCreatorAlpha) : SqlCreatorAlpha :=
  _build_delete b

/-- `order_by(*columns, how)`. -/
def order_by (b : SqlCreatorAlpha) (columns : List String) (how : String) : SqlCreatorAlpha :=
  { b with _order_by_columns := b._order_by_columns ++ columns, _order_by_state := how }

/-- `group_by(*columns)`. -/
def group_by (b : SqlCreatorAlpha) (columns : List String) : SqlCreatorAlpha :=
  { b with _group_by_columns := b._group_by_columns ++ columns }

/-- `returning(*value)`. -/
def returning (b : SqlCreatorAlpha) (value : List String) : SqlCreatorAlpha :=
  { b with _returning := String.intercalate ", " value }

/-- `limit(lim)`. -/
def limit (b : SqlCreatorAlpha) (lim : Int) : SqlCreatorAlpha :=
  { b with _limit := lim }

/-- `having(condition)`. -/
def having (b : SqlCreatorAlpha) (condition : String) : SqlCreatorAlpha :=
  { b with _having := condition }

/-- `with_as(name, sql)` (positional form): append `name AS (sql)`. -/
def with_as (b : SqlCreatorAlpha) (name sql : String) : SqlCreatorAlpha :=
  { b with _with_constructions := b._with_constructions ++ [name ++ " AS (" ++ sql ++ ")"] }

/-- `join(table, condition, join_type)`: append the schema-qualified join
clause. -/
def join (b : SqlCreatorAlpha) (table condition join_type : String) : SqlCreatorAlpha :=
  { b with _join_clauses := b._join_clauses ++
      [join_type ++ " JOIN " ++ b._schema ++ dotOf b._schema ++ table ++ " ON " ++ condition] }

/-- `left_join`. -/
def left_join (b : SqlCreatorAlpha) (table condition : String) : SqlCreatorAlpha :=
  b.join table condition "LEFT"

/-- `right_join`. -/
def right_join (b : SqlCreatorAlpha) (table condition : String) : SqlCreatorAlpha :=
  b.join table condition "RIGHT"

/-- `full_join`. -/
def full_join (b : SqlCreatorAlpha) (table condition : String) : SqlCreatorAlpha :=
  b.join table condition "FULL"

/-- `build_join()`: space-joined join clauses, `''` when none. -/
def build_join (b : SqlCreatorAlpha) : String :=
  if b._join_clauses ≠ [] then String.intercalate " " b._join_clauses else ""

end SqlCreatorAlpha

/-- Does the character list begin with a case-insensitive `'null'`
occurrence (six characters: quote, n, u, l, l, quote)?  This is one match
attempt of the pattern `r"\'null\'"` with `re.I`. -/
def quotedNullAt : List Char → Bool
  | q1 :: c1 :: c2 :: c3 :: c4 :: q2 :: _ =>
      q1 == '\'' && q2 == '\'' && c1.toLower == 'n' && c2.toLower == 'u' &&
        c3.toLower == 'l' && c4.toLower == 'l'
  | _ => false

/-- Leftmost, non-overlapping replacement of every `'null'` occurrence by
`NULL`, as `re.sub(r"\'null\'", 'NULL', query)` performs in
`format_query`.  The recursion is driven by a fuel argument (always
called with `fuel = l.length`, which suffices: each step consumes at
least one character) so the function stays structurally recursive and
computable by the kernel. -/
def nullTrimGo : Nat → List Char → List Char
  | _, [] => []
  | 0, l => l
  | fuel + 1, c :: cs =>
    if quotedNullAt (c :: cs) then
      'N' :: 'U' :: 'L' :: 'L' :: nullTrimGo fuel (cs.drop 5)
    else c :: nullTrimGo fuel cs

/-- `nullTrimGo` with enough fuel for its input. -/
def nullTrimAux (l : List Char) : List Char := nullTrimGo l.length l

/-- Is there any case-insensitive `'null'` occurrence in the list? -/
def hasQuotedNullAux : List Char → Bool
  | [] => false
  | c :: cs => quotedNullAt (c :: cs) || hasQuotedNullAux cs

/-- String-level wrapper for `nullTrimAux`. -/
def nullTrim (s : String) : String := String.mk (nullTrimAux s.data)

/-- String-level wrapper for `hasQuotedNullAux`. -/
def hasQuotedNull (s : String) : Bool := hasQuotedNullAux s.data

namespace SqlCreatorAlpha

/-- `format_query(query)` (src/sql.py lines 683-697): the quoted-`'null'`
trimming performed by the repository's own `re.sub`, followed by the
external `sqlparse.format` canonicalizer.  The canonicalizer is an
out-of-scope black-box collaborator (spec section 6: it re-indents and
re-cases text without changing its semantics) and is modelled as the
identity on the assembled text. -/
def format_query (query : String) : String := nullTrim query

/-- `__repr__` step: prepend the CTE clause when `_with_constructions`
is non-empty. -/
def withStep (b : SqlCreatorAlpha) (query : String) : String :=
  if b._with_constructions ≠ [] then
    "WITH " ++ String.intercalate ",\n" b._with_constructions ++ "\n" ++ query
  else query

/-- `__repr__` step: append `build_join()` when there are join clauses. -/
def joinStep (b : SqlCreatorAlpha) (query : String) : String :=
  if b._join_clauses ≠ [] then query ++ b.build_join else query

/-- `__repr__` step: append the WHERE clause (the fragment loop) when the
filter accumulator is non-empty. -/
def whereStep (b : SqlCreatorAlpha) (query : String) : String :=
  if b._where_conditions ≠ [] then
    query ++ "\nWHERE " ++ renderFrags b._where_conditions
  else query

/-- `__repr__` step: append the GROUP BY clause. -/
def groupStep (b : SqlCreatorAlpha) (query : String) : String :=
  if b._group_by_columns ≠ [] then
    query ++ "\nGROUP BY " ++ String.intercalate ", " b._group_by_columns
  else query

/-- `__repr__` step: append the ORDER BY clause with its direction. -/
def orderStep (b : SqlCreatorAlpha) (query : String) : String :=
  if b._order_by_columns ≠ [] then
    query ++ "\nORDER BY " ++ String.intercalate ", " b._order_by_columns ++ " " ++
      b._order_by_state
  else query

/-- `__repr__` step: append the HAVING clause. -/
def havingStep (b : SqlCreatorAlpha) (query : String) : String :=
  if b._having ≠ "" then query ++ "\nHAVING " ++ b._having else query

/-- `__repr__` step: append the LIMIT clause when the limit is non-zero. -/
def limitStep (b : SqlCreatorAlpha) (query : String) : String :=
  if b._limit ≠ 0 then query ++ "\nLIMIT " ++ toString b._limit else query

/-- `__repr__` step: append the RETURNING clause. -/
def returningStep (b : SqlCreatorAlpha) (query : String) : String :=
  if b._returning ≠ "" then query ++ "\nRETURNING " ++ b._returning else query

/-- The statement text `__repr__` assembles (src/sql.py lines 729-753),
before the destructive-statement check and before `format_query`: the
clause sections are appended to `self.query` in the fixed source order
CTE, joins, WHERE, GROUP BY, ORDER BY, HAVING, LIMIT, RETURNING. -/
def assembleQuery (b : SqlCreatorAlpha) : String :=
  returningStep b (limitStep b (havingStep b (orderStep b (groupStep b
    (whereStep b (joinStep b (withStep b b.query)))))))

/-- `__repr__` (src/sql.py lines 729-759).  After assembling the text:
if the destructive flag is set, the filter accumulator empty and
tolerance off, `WhereError` is raised; with tolerance on, a non-fatal
warning is emitted (the returned Boolean records whether the warning
fired) and the formatted text is returned; otherwise the formatted text
is returned silently. -/
def render (b : SqlCreatorAlpha) : Except RenderError (String × Bool) :=
  let query := b.assembleQuery
  if b._danger_query && b._where_conditions.isEmpty && !b._ignore_errors then
    Except.error (RenderError.whereError whereErrorMessage)
  else if b._danger_query && b._where_conditions.isEmpty && b._ignore_errors then
    Except.ok (format_query query, true)
  else
    Except.ok (format_query query, false)

/-- `clear()` (src/sql.py lines 761-771): every attribute except
`_schema` and `_table` is reset by its runtime type — lists are emptied,
ints become 0, booleans become falsy, strings become `''`. -/
def clear (b : SqlCreatorAlpha) : SqlCreatorAlpha :=
  { b with
    dot := "", query := "",
    _select_columns := [], _insert_columns := [], _insert_values := [],
    _update_columns := [], _set_values := [], _with_constructions := [],
    _order_by_columns := [], _order_by_state := "", _group_by_columns := [],
    _join_clauses := [], _returning := "", _limit := 0, _having := "",
    _ignore_errors := false, _danger_query := false, _where_conditions := [] }

end SqlCreatorAlpha

/-- Whitespace test used by the modelled external classifier. -/
def isSpaceChar (c : Char) : Bool :=
  c == ' ' || c == '\n' || c == '\t' || c == '\r'

/-- Modelled from the spec: the external SQL tokenizer (`sqlparse`) is
not part of this repository; spec section 6 specifies it as a black-box
validator/classifier `(text) -> {statementCount, statementType,
isWellFormed}`.  Statement splitting is modelled as splitting the text at
`;` separators. -/
def splitOnSemicolon : List Char → List (List Char)
  | [] => [[]]
  | c :: cs =>
    if c = ';' then [] :: splitOnSemicolon cs
    else
      match splitOnSemicolon cs with
      | [] => [[c]]
      | s :: rest => (c :: s) :: rest

/-- A statement text is blank when it is all whitespace. -/
def isBlank (l : List Char) : Bool :=
  (l.dropWhile isSpaceChar).isEmpty

/-- First whitespace-delimited word of a statement text. -/
def firstWord (l : List Char) : List Char :=
  (l.dropWhile isSpaceChar).takeWhile (fun c => !isSpaceChar c)

/-- Modelled from the spec: `sqlparse.parse(query)` as a statement-count
source — the non-blank `;`-separated segments of the text (empty input
yields no statements, matching the spec's "rejects empty ...
input"). -/
def parseStatements (query : String) : List String :=
  ((splitOnSemicolon query.data).filter (fun cs => !isBlank cs)).map String.mk

/-- Modelled from the spec: `Statement.get_type()` — the statement's
leading keyword, upper-cased. -/
def statementType (stmt : String) : String :=
  String.mk ((firstWord stmt.data).map Char.toUpper)

/-- The statement verbs `_validate_query` accepts. -/
def supportedTypes : List String := ["SELECT", "INSERT", "UPDATE", "DELETE"]

namespace SqlCreatorAlpha

/-- `_validate_query(query)` (src/sql.py lines 699-715), over the
spec-modelled external classifier: no statement — `Empty query`; more
than one — `Multiple queries ...`; unsupported verb — `Invalid query
type`; a blank statement (the modelling of `not stmt.is_group`) —
`Malformed query`; otherwise `True`. -/
def _validate_query (query : String) : Except QueryError Bool :=
  let parsed := parseStatements query
  if parsed.length = 0 then Except.error (QueryError.queryError "Empty query")
  else if parsed.length > 1 then
    Except.error (QueryError.queryError "Multiple queries in one statement are not supported")
  else
    let stmt := parsed.headD ""
    if ¬ (statementType stmt ∈ supportedTypes) then
      Except.error (QueryError.queryError "Invalid query type")
    else if isBlank stmt.data then
      Except.error (QueryError.queryError "Malformed query")
    else Except.ok true

/-- `from_raw(query)` (src/sql.py lines 717-727): validate, then store
the formatted text as the fresh builder's pre-rendered body. -/
def from_raw (query : String) : Except QueryError SqlCreatorAlpha :=
  let c := init "banks" "" false
  match _validate_query query with
  | Except.error e => Except.error e
  | Except.ok _ => Except.ok { c with query := format_query query }

end SqlCreatorAlpha

/-- C1: on a builder whose destructive flag is set (i.e. `set`/`update`
or `delete` has been called; see `claim_C10` for that implication) and
whose filter accumulator is empty, rendering raises `WhereError` when
tolerance (`ignore_errors`) is off, and with tolerance on it returns a
text together with an observable warning (the Boolean in the result). -/
theorem claim_C1 (b : SqlCreatorAlpha)
    (hd : b._danger_query = true) (hw : b._where_conditions = []) :
    (b._ignore_errors = false →
      b.render = Except.error (RenderError.whereError whereErrorMessage)) ∧
    (b._ignore_errors = true →
      b.render = Except.ok (SqlCreatorAlpha.format_query b.assembleQuery, true)) := by
  constructor <;> intro h <;> simp [SqlCreatorAlpha.render, hd, hw, h]

/-- Witness for C1: a `delete()` on a fresh builder with tolerance off
fails with the missing-filter error; with tolerance on it renders a text
with the warning flag set. -/
theorem claim_C1_witness :
    ((SqlCreatorAlpha.init "s" "t" false).delete).render =
      Except.error (RenderError.whereError whereErrorMessage) ∧
    ((SqlCreatorAlpha.init "s" "t" true).delete).render =
      Except.ok
        (SqlCreatorAlpha.format_query ((SqlCreatorAlpha.init "s" "t" true).delete).assembleQuery,
          true) :=
  ⟨(claim_C1 _ rfl rfl).1 rfl, (claim_C1 _ rfl rfl).2 rfl⟩

/-- C3 (the code at the failing input): invoking `insert` or
`set`/`update` with zero columns supplied raises
`ValueError: not enough values to unpack` at
`columns, values = zip(*d.items())` — no advisory warning is emitted and
the call does not return. -/
theorem claim_C3 (b : SqlCreatorAlpha) :
    b.insert [] =
      Except.error (PyError.valueError "not enough values to unpack (expected 2, got 0)") ∧
    b.set [] =
      Except.error (PyError.valueError "not enough values to unpack (expected 2, got 0)") ∧
    b.update [] =
      Except.error (PyError.valueError "not enough values to unpack (expected 2, got 0)") :=
  ⟨rfl, rfl, rfl⟩

/-- C8: `clear()` empties every clause accumulator (select, insert
columns/values, update columns/values, where fragments, joins, CTEs,
group-by, order-by), resets the limit to 0 and the destructive flag to
false, and leaves the schema and table fields exactly as they were. -/
theorem claim_C8 (b : SqlCreatorAlpha) :
    (b.clear)._schema = b._schema ∧ (b.clear)._table = b._table ∧
    (b.clear)._select_columns = [] ∧
    (b.clear)._insert_columns = [] ∧ (b.clear)._insert_values = [] ∧
    (b.clear)._update_columns = [] ∧ (b.clear)._set_values = [] ∧
    (b.clear)._where_conditions = [] ∧ (b.clear)._join_clauses = [] ∧
    (b.clear)._with_constructions = [] ∧ (b.clear)._group_by_columns = [] ∧
    (b.clear)._order_by_columns = [] ∧
    (b.clear)._limit = 0 ∧ (b.clear)._danger_query = false :=
  ⟨rfl, rfl, rfl, rfl, rfl, rfl, rfl, rfl, rfl, rfl, rfl, rfl, rfl, rfl⟩

/-- C10: once the destructive flag is true, a later `select` keeps it
true, a later `insert` keeps it true on whatever builder it returns, a
`select`-refreshed builder still fails rendering when the filter
accumulator is empty and tolerance is off, and only `clear()` resets the
flag. -/
theorem claim_C10 (b : SqlCreatorAlpha) (cols : List String)
    (kv : List (String × Value)) (hd : b._danger_query = true) :
    (b.select cols)._danger_query = true ∧
    ((b.insert kv).map (fun b' => b'._danger_query) =
      (b.insert kv).map (fun _ => true)) ∧
    ((b.select cols)._where_conditions = [] → (b.select cols)._ignore_errors = false →
      (b.select cols).render = Except.error (RenderError.whereError whereErrorMessage)) ∧
    (b.clear)._danger_query = false := by
  have hsel : (b.select cols)._danger_query = b._danger_query := by
    simp only [SqlCreatorAlpha.select, SqlCreatorAlpha._build_select]
    split <;> rfl
  refine ⟨hsel.trans hd, ?_, ?_, rfl⟩
  · simp only [SqlCreatorAlpha.insert]
    split
    · rfl
    · simp only [Except.map, SqlCreatorAlpha._build_insert, hd]
  · intro hw hi
    simp [SqlCreatorAlpha.render, hsel.trans hd, hw, hi]

/-- Witness for C10: after `delete()`, a subsequent `select` leaves the
flag set and rendering still fails; `clear()` resets it. -/
theorem claim_C10_witness :
    (((SqlCreatorAlpha.init "s" "t" false).delete).select ["x"])._danger_query = true ∧
    ((((SqlCreatorAlpha.init "s" "t" false).delete).insert [("a", Value.none)]).map
        (fun b' => b'._danger_query) =
      (((SqlCreatorAlpha.init "s" "t" false).delete).insert [("a", Value.none)]).map
        (fun _ => true)) ∧
    ((((SqlCreatorAlpha.init "s" "t" false).delete).select ["x"])._where_conditions = [] →
      (((SqlCreatorAlpha.init "s" "t" false).delete).select ["x"])._ignore_errors = false →
      (((SqlCreatorAlpha.init "s" "t" false).delete).select ["x"]).render =
        Except.error (RenderError.whereError whereErrorMessage)) ∧
    (((SqlCreatorAlpha.init "s" "t" false).delete).clear)._danger_query = false :=
  claim_C10 ((SqlCreatorAlpha.init "s" "t" false).delete) ["x"] [("a", Value.none)] rfl

/-- C9 counterexample: a freshly constructed builder renders successfully
(to the empty text — no clause has been established and the destructive
flag is off), yet `from_raw` applied to that rendered text raises
`QueryError("Empty query")`: the round-trip fails. -/
theorem claim_C9_counterexample :
    (SqlCreatorAlpha.init "banks" "" false).render = Except.ok ("", false) ∧
    SqlCreatorAlpha.from_raw "" = Except.error (QueryError.queryError "Empty query") :=
  ⟨rfl, rfl⟩

/-- `needle` occurs as a contiguous substring of `hay`. -/
def strContains (needle hay : String) : Prop :=
  needle.data <:+: hay.data

instance (needle hay : String) : Decidable (strContains needle hay) :=
  inferInstanceAs (Decidable (needle.data <:+: hay.data))

/-- `zip` against a shorter-or-equal right list ignores the left list's
tail beyond that length (this is what makes `_build_set` render only the
first stored row). -/
theorem zip_append_left {α β : Type} (l1 l2 : List α) (l3 : List β)
    (h : l3.length ≤ l1.length) : (l1 ++ l2).zip l3 = l1.zip l3 := by
  induction l1 generalizing l3 with
  | nil =>
    cases l3 with
    | nil => simp
    | cons b bs => simp at h
  | cons a as ih =>
    cases l3 with
    | nil => simp
    | cons b bs =>
      simp only [List.cons_append, List.zip_cons_cons, List.cons.injEq, true_and]
      exact ih bs (by simpa using h)

/-- C2 counterexample: two successive `set` calls; the rendered
`UPDATE ... SET` clause shows the FIRST call's row (`a=1`), and the most
recent call's assignment (`b=2`) does not appear anywhere in it. -/
theorem claim_C2_counterexample :
    (((SqlCreatorAlpha.init "s" "t" false).set [("a", Value.int 1)]).bind
        (fun b1 => b1.set [("b", Value.int 2)])).map (fun b2 => b2.query) =
      Except.ok "UPDATE s.t SET a=1 " ∧
    ¬ strContains "b=2" "UPDATE s.t SET a=1 " :=
  ⟨rfl, by decide⟩

/-- A chain of further `set` calls, applied in order (each list is the
merged item list handed to one `set(column_values)` call). -/
def SqlCreatorAlpha.applySetCalls (b : SqlCreatorAlpha) :
    List (List (String × Value)) → Except PyError SqlCreatorAlpha
  | [] => Except.ok b
  | kv :: rest =>
    match b.set kv with
    | Except.error e => Except.error e
    | Except.ok b' => SqlCreatorAlpha.applySetCalls b' rest

/-- The clause text `_build_set` stores, as an equation. -/
theorem _build_set_query (y : SqlCreatorAlpha) :
    (SqlCreatorAlpha._build_set y).query =
      "UPDATE " ++ y._schema ++ dotOf y._schema ++ y._table ++ " " ++ "SET " ++
        String.intercalate ", " ((y._update_columns.zip (y._set_values.headD [])).map
          (fun cv => cv.1 ++ "=" ++ pyStrRet cv.2)) ++ " " := rfl

/-- `_build_set` does not touch the row accumulator. -/
theorem _build_set_set_values (y : SqlCreatorAlpha) :
    (SqlCreatorAlpha._build_set y)._set_values = y._set_values := rfl

/-- `_build_set` does not touch the column accumulator. -/
theorem _build_set_update_columns (y : SqlCreatorAlpha) :
    (SqlCreatorAlpha._build_set y)._update_columns = y._update_columns := rfl

/-- One further `set` call on a builder already in post-`set` state (its
row list non-empty, its first row no wider than its column list) leaves
the rendered `UPDATE ... SET` clause text unchanged and preserves that
state: `_build_set` zips the grown column list against the unchanged
first row `_set_values[0]`, and `zip` truncates at that row's width. -/
theorem set_step (b : SqlCreatorAlpha) (kv : List (String × Value)) (b' : SqlCreatorAlpha)
    (hne : b._set_values ≠ [])
    (hlen : (b._set_values.headD []).length ≤ b._update_columns.length)
    (h : b.set kv = Except.ok b') :
    b'.query = (SqlCreatorAlpha._build_set b).query ∧
    b'._set_values ≠ [] ∧
    (b'._set_values.headD []).length ≤ b'._update_columns.length ∧
    b'.query = (SqlCreatorAlpha._build_set b').query := by
  obtain ⟨v0, vrest, hv⟩ := List.exists_cons_of_ne_nil hne
  cases kv with
  | nil => simp [SqlCreatorAlpha.set] at h
  | cons x xs =>
    have hT : b.set (x :: xs) = Except.ok (SqlCreatorAlpha._build_set
        { b with
          _update_columns := b._update_columns ++
            (((x :: xs).map (fun kv => (kv.1, proper_type kv.2 true))).map Prod.fst),
          _set_values := b._set_values ++
            [((x :: xs).map (fun kv => (kv.1, proper_type kv.2 true))).map Prod.snd] }) := rfl
    rw [hT] at h
    injection h with hb'
    subst hb'
    have hlen0 : v0.length ≤ b._update_columns.length := by
      rw [hv] at hlen
      simpa using hlen
    refine ⟨?_, ?_, ?_, rfl⟩
    · rw [_build_set_query, _build_set_query]
      dsimp only
      rw [hv]
      simp only [List.cons_append, List.headD_cons]
      rw [zip_append_left _ _ _ hlen0]
    · rw [_build_set_set_values]
      dsimp only
      simp
    · rw [_build_set_set_values, _build_set_update_columns]
      dsimp only
      rw [hv]
      simp only [List.cons_append, List.headD_cons, List.length_append]
      exact le_trans hlen0 (Nat.le_add_right _ _)

/-- Every chain of further non-empty `set` calls on a post-`set` builder
succeeds and leaves the rendered clause text unchanged. -/
theorem applySetCalls_first_row (kvs : List (List (String × Value))) :
    ∀ b : SqlCreatorAlpha, (∀ kv ∈ kvs, kv ≠ []) →
      b._set_values ≠ [] →
      (b._set_values.headD []).length ≤ b._update_columns.length →
      b.query = (SqlCreatorAlpha._build_set b).query →
      ∃ bn, SqlCreatorAlpha.applySetCalls b kvs = Except.ok bn ∧ bn.query = b.query := by
  induction kvs with
  | nil =>
    intro b _ _ _ _
    exact ⟨b, rfl, rfl⟩
  | cons kv rest ih =>
    intro b hs hne hlen hq
    obtain ⟨x, xs, rfl⟩ := List.exists_cons_of_ne_nil (hs kv (List.mem_cons_self _ _))
    obtain ⟨h1, h2, h3, h4⟩ := set_step b (x :: xs) _ hne hlen rfl
    obtain ⟨bn, happ, hbn⟩ := ih _ (fun k hk => hs k (List.mem_cons_of_mem _ hk)) h2 h3 h4
    refine ⟨bn, happ, ?_⟩
    rw [hbn, h1, ← hq]

/-- C2 amended: on a builder with fresh update accumulators, for the
first `set` call followed by any number of further `set` (or `update`)
calls, the value row that appears in the rendered `UPDATE ... SET`
clause is the row supplied by the FIRST call: `_build_set` zips the
accumulated column list against `_set_values[0]`, truncating at the
first row's width, so every later call stores its row but leaves the
rendered clause text unchanged. -/
theorem claim_C2 (b : SqlCreatorAlpha) (kv1 : List (String × Value))
    (kvs : List (List (String × Value)))
    (hcols : b._update_columns = []) (hvals : b._set_values = [])
    (h1 : kv1 ≠ []) (hs : ∀ kv ∈ kvs, kv ≠ []) :
    ∃ b1 bn, b.set kv1 = Except.ok b1 ∧
      SqlCreatorAlpha.applySetCalls b1 kvs = Except.ok bn ∧
      b1.query = "UPDATE " ++ b._schema ++ dotOf b._schema ++ b._table ++ " " ++ "SET " ++
        String.intercalate ", " (kv1.map
          (fun kv => kv.1 ++ "=" ++ pyStrRet (proper_type kv.2 true))) ++ " " ∧
      bn.query = b1.query := by
  obtain ⟨x, xs, rfl⟩ := List.exists_cons_of_ne_nil h1
  have hT : b.set (x :: xs) = Except.ok (SqlCreatorAlpha._build_set
      { b with
        _update_columns := b._update_columns ++
          (((x :: xs).map (fun kv => (kv.1, proper_type kv.2 true))).map Prod.fst),
        _set_values := b._set_values ++
          [((x :: xs).map (fun kv => (kv.1, proper_type kv.2 true))).map Prod.snd] }) := rfl
  have hne1 : (SqlCreatorAlpha._build_set
      { b with
        _update_columns := b._update_columns ++
          (((x :: xs).map (fun kv => (kv.1, proper_type kv.2 true))).map Prod.fst),
        _set_values := b._set_values ++
          [((x :: xs).map (fun kv => (kv.1, proper_type kv.2 true))).map Prod.snd]
      })._set_values ≠ [] := by
    rw [_build_set_set_values]
    dsimp only
    simp [hvals]
  have hlen1 : ((SqlCreatorAlpha._build_set
      { b with
        _update_columns := b._update_columns ++
          (((x :: xs).map (fun kv => (kv.1, proper_type kv.2 true))).map Prod.fst),
        _set_values := b._set_values ++
          [((x :: xs).map (fun kv => (kv.1, proper_type kv.2 true))).map Prod.snd]
      })._set_values.headD []).length ≤ (SqlCreatorAlpha._build_set
      { b with
        _update_columns := b._update_columns ++
          (((x :: xs).map (fun kv => (kv.1, proper_type kv.2 true))).map Prod.fst),
        _set_values := b._set_values ++
          [((x :: xs).map (fun kv => (kv.1, proper_type kv.2 true))).map Prod.snd]
      })._update_columns.length := by
    rw [_build_set_set_values, _build_set_update_columns]
    dsimp only
    rw [hvals, hcols]
    simp
  obtain ⟨bn, happ, hbn⟩ := applySetCalls_first_row kvs _ hs hne1 hlen1 rfl
  refine ⟨_, bn, hT, happ, ?_, hbn⟩
  rw [_build_set_query]
  dsimp only
  rw [hvals, hcols]
  simp [List.zip_map', List.map_map, Function.comp_def]

/-- Witness for C2: a first `set` followed by a chain of two further
`set` calls (three calls in all); the rendered clause is the first
call's `a=1` row throughout. -/
theorem claim_C2_witness :
    ∃ b1 bn, (SqlCreatorAlpha.init "s" "t" false).set [("a", Value.int 1)] = Except.ok b1 ∧
      SqlCreatorAlpha.applySetCalls b1 [[("b", Value.int 2)], [("c", Value.int 3)]] =
        Except.ok bn ∧
      b1.query = "UPDATE " ++ "s" ++ dotOf "s" ++ "t" ++ " " ++ "SET " ++
        String.intercalate ", " ([("a", Value.int 1)].map
          (fun kv => kv.1 ++ "=" ++ pyStrRet (proper_type kv.2 true))) ++ " " ∧
      bn.query = b1.query :=
  claim_C2 (SqlCreatorAlpha.init "s" "t" false) [("a", Value.int 1)]
    [[("b", Value.int 2)], [("c", Value.int 3)]] rfl rfl (by decide) (by decide)

/-- The joiner of an `and_where` / `or_where` call. -/
inductive Joiner where
  | jand
  | jor
deriving DecidableEq, Repr

/-- The operator text the call appends. -/
def Joiner.text : Joiner → String
  | .jand => "AND"
  | .jor => "OR"

/-- Perform the corresponding filter-accumulator call. -/
def Joiner.apply (j : Joiner) (b : SqlCreatorAlpha) (condition : String) : SqlCreatorAlpha :=
  match j with
  | .jand => b.and_where condition
  | .jor => b.or_where condition

/-- A chain of `and_where`/`or_where` calls, applied in order. -/
def SqlCreatorAlpha.applyWhereCalls (b : SqlCreatorAlpha) :
    List (Joiner × String) → SqlCreatorAlpha
  | [] => b
  | jc :: rest => SqlCreatorAlpha.applyWhereCalls (jc.1.apply b jc.2) rest

/-- Concatenation of a list of strings, in order. -/
def concatList : List String → String
  | [] => ""
  | s :: rest => s ++ concatList rest

theorem strData_append (s t : String) : (s ++ t).data = s.data ++ t.data := rfl

theorem strContains_appendR (n a t : String) (h : strContains n a) :
    strContains n (a ++ t) := by
  obtain ⟨s1, s2, hs⟩ := h
  refine ⟨s1, s2 ++ t.data, ?_⟩
  rw [strData_append, ← hs]
  simp [List.append_assoc]

theorem strContains_appendL (n a t : String) (h : strContains n t) :
    strContains n (a ++ t) := by
  obtain ⟨s1, s2, hs⟩ := h
  refine ⟨a.data ++ s1, s2, ?_⟩
  rw [strData_append, ← hs]
  simp [List.append_assoc]

/-- The `__repr__` WHERE-loop accumulates exactly the concatenation of the
fragment texts, in order. -/
theorem foldl_fragText (l : List Frag) (s : String) :
    l.foldl (fun acc f => acc ++ fragText f) s = s ++ concatList (l.map fragText) := by
  induction l generalizing s with
  | nil => simp [concatList]
  | cons f fs ih => simp [concatList, ih, String.append_assoc]

theorem renderFrags_eq (l : List Frag) :
    renderFrags l = concatList (l.map fragText) := by
  have h := foldl_fragText l ""
  simpa [renderFrags] using h

/-- `applyWhereCalls` appends exactly the corresponding joined fragments,
in call order, and nothing else to the filter accumulator. -/
theorem applyWhereCalls_conds (calls : List (Joiner × String)) (b : SqlCreatorAlpha) :
    (b.applyWhereCalls calls)._where_conditions =
      b._where_conditions ++ calls.map (fun jc => Frag.joined jc.1.text jc.2) := by
  induction calls generalizing b with
  | nil => simp [SqlCreatorAlpha.applyWhereCalls]
  | cons jc rest ih =>
    obtain ⟨j, c⟩ := jc
    cases j <;>
      simp [SqlCreatorAlpha.applyWhereCalls, Joiner.apply, ih, Joiner.text,
        SqlCreatorAlpha.and_where, SqlCreatorAlpha.or_where]

/-- With enough fuel, `nullTrimGo` is the identity on a text with no
quoted-`'null'` occurrence. -/
theorem nullTrimGo_id (fuel : Nat) (l : List Char) (hf : l.length ≤ fuel)
    (h : hasQuotedNullAux l = false) : nullTrimGo fuel l = l := by
  induction fuel generalizing l with
  | zero =>
    cases l with
    | nil => rfl
    | cons c cs => simp at hf
  | succ fuel ih =>
    cases l with
    | nil => rfl
    | cons c cs =>
      simp only [hasQuotedNullAux, Bool.or_eq_false_iff] at h
      simp only [nullTrimGo, h.1, Bool.false_eq_true, if_false]
      rw [ih cs (by simpa using hf) h.2]

/-- The repository's `'null'`-trimming is the identity on a text with no
quoted-`'null'` occurrence. -/
theorem nullTrim_id (s : String) (h : hasQuotedNull s = false) : nullTrim s = s := by
  show String.mk (nullTrimAux s.data) = s
  rw [show nullTrimAux s.data = s.data from nullTrimGo_id _ _ le_rfl h]

theorem strContains_nlWhere (q t : String) :
    strContains ("WHERE " ++ t) (q ++ "\nWHERE " ++ t) := by
  unfold strContains
  have h1 : (q ++ "\nWHERE " ++ t).data =
      (q.data ++ ['\n']) ++ ("WHERE " ++ t).data ++ [] := by
    simp only [strData_append, List.append_nil, List.append_assoc,
      List.singleton_append]
    rfl
  rw [h1]
  exact List.infix_append _ _ _

theorem strContains_groupStep (b : SqlCreatorAlpha) (n q : String)
    (h : strContains n q) : strContains n (SqlCreatorAlpha.groupStep b q) := by
  unfold SqlCreatorAlpha.groupStep
  split
  · exact strContains_appendR _ _ _ (strContains_appendR _ _ _ h)
  · exact h

theorem strContains_orderStep (b : SqlCreatorAlpha) (n q : String)
    (h : strContains n q) : strContains n (SqlCreatorAlpha.orderStep b q) := by
  unfold SqlCreatorAlpha.orderStep
  split
  · exact strContains_appendR _ _ _ (strContains_appendR _ _ _
      (strContains_appendR _ _ _ (strContains_appendR _ _ _ h)))
  · exact h

theorem strContains_havingStep (b : SqlCreatorAlpha) (n q : String)
    (h : strContains n q) : strContains n (SqlCreatorAlpha.havingStep b q) := by
  unfold SqlCreatorAlpha.havingStep
  split
  · exact strContains_appendR _ _ _ (strContains_appendR _ _ _ h)
  · exact h

theorem strContains_limitStep (b : SqlCreatorAlpha) (n q : String)
    (h : strContains n q) : strContains n (SqlCreatorAlpha.limitStep b q) := by
  unfold SqlCreatorAlpha.limitStep
  split
  · exact strContains_appendR _ _ _ (strContains_appendR _ _ _ h)
  · exact h

theorem strContains_returningStep (b : SqlCreatorAlpha) (n q : String)
    (h : strContains n q) : strContains n (SqlCreatorAlpha.returningStep b q) := by
  unfold SqlCreatorAlpha.returningStep
  split
  · exact strContains_appendR _ _ _ (strContains_appendR _ _ _ h)
  · exact h

/-- C7: for every sequence of `and_where`/`or_where` calls following one
`where` call, rendering succeeds (without the destructive-statement
warning) and the rendered text contains the WHERE clause with the
predicate fragments in exactly the call order, each non-first fragment
preceded by its own AND or OR joiner.  (The hypothesis excludes
quoted-`'null'` occurrences in the assembled text, which `format_query`'s
`re.sub` would rewrite before returning.) -/
theorem claim_C7 (b0 : SqlCreatorAlpha) (p : String) (calls : List (Joiner × String))
    (hw : b0._where_conditions = [])
    (hn : hasQuotedNull (((b0.where' p).applyWhereCalls calls).assembleQuery) = false) :
    ∃ t : String,
      ((b0.where' p).applyWhereCalls calls).render = Except.ok (t, false) ∧
      strContains
        ("WHERE " ++ p ++ " " ++
          concatList (calls.map (fun jc => jc.1.text ++ " " ++ jc.2 ++ " "))) t := by
  have hconds : ((b0.where' p).applyWhereCalls calls)._where_conditions =
      Frag.bare p :: calls.map (fun jc => Frag.joined jc.1.text jc.2) := by
    rw [applyWhereCalls_conds]
    simp [SqlCreatorAlpha.where', hw]
  have hne : ((b0.where' p).applyWhereCalls calls)._where_conditions ≠ [] := by
    rw [hconds]
    exact List.cons_ne_nil _ _
  have hie : ((b0.where' p).applyWhereCalls calls)._where_conditions.isEmpty = false := by
    rw [hconds]
    rfl
  refine ⟨SqlCreatorAlpha.format_query ((b0.where' p).applyWhereCalls calls).assembleQuery,
    ?_, ?_⟩
  · unfold SqlCreatorAlpha.render
    simp [hie]
  · rw [show SqlCreatorAlpha.format_query
        ((b0.where' p).applyWhereCalls calls).assembleQuery =
        ((b0.where' p).applyWhereCalls calls).assembleQuery from nullTrim_id _ hn]
    have hT : "WHERE " ++ p ++ " " ++
        concatList (calls.map (fun jc => jc.1.text ++ " " ++ jc.2 ++ " ")) =
        "WHERE " ++ renderFrags ((b0.where' p).applyWhereCalls calls)._where_conditions := by
      rw [hconds, renderFrags_eq]
      simp [concatList, fragText, List.map_map, Function.comp_def, String.append_assoc]
    rw [hT]
    unfold SqlCreatorAlpha.assembleQuery
    apply strContains_returningStep
    apply strContains_limitStep
    apply strContains_havingStep
    apply strContains_orderStep
    apply strContains_groupStep
    unfold SqlCreatorAlpha.whereStep
    rw [if_pos hne]
    exact strContains_nlWhere _ _

/-- Witness for C7: the spec's own example,
`where("age > 18").and_where("gender = 'female'")` on a fresh SELECT
builder. -/
theorem claim_C7_witness :
    ∃ t : String,
      ((((SqlCreatorAlpha.init "s" "t" false).select ["name", "age"]).where'
          "age > 18").applyWhereCalls [(Joiner.jand, "gender = 'female'")]).render =
        Except.ok (t, false) ∧
      strContains
        ("WHERE " ++ "age > 18" ++ " " ++
          concatList ([(Joiner.jand, "gender = 'female'")].map
            (fun jc => jc.1.text ++ " " ++ jc.2 ++ " "))) t :=
  claim_C7 ((SqlCreatorAlpha.init "s" "t" false).select ["name", "age"])
    "age > 18" [(Joiner.jand, "gender = 'female'")] rfl (by decide)

theorem strMk_data (s : String) : String.mk s.data = s := rfl

/-- A text without `;` is a single statement for the modelled splitter. -/
theorem splitOnSemicolon_no_semi (l : List Char) (h : ';' ∉ l) :
    splitOnSemicolon l = [l] := by
  induction l with
  | nil => rfl
  | cons c cs ih =>
    have hc : ¬ c = ';' := fun e => h (by simp [e])
    have hcs : ';' ∉ cs := fun m => h (List.mem_cons_of_mem _ m)
    simp [splitOnSemicolon, hc, ih hcs]

/-- A statement whose leading keyword is a supported verb is not blank. -/
theorem isBlank_false_of_supported (t : String)
    (h : statementType t ∈ supportedTypes) : isBlank t.data = false := by
  cases hh : isBlank t.data
  · rfl
  · exfalso
    have hdrop : t.data.dropWhile isSpaceChar = [] := by
      have := hh
      unfold isBlank at this
      exact List.isEmpty_iff.mp this
    have hty : statementType t = "" := by
      unfold statementType firstWord
      rw [hdrop]
      rfl
    rw [hty] at h
    simp [supportedTypes] at h

/-- C9 amended: the round-trip `from_raw(render(b))` validates whenever
the rendered text is a single statement (no `;` separator) whose leading
keyword is one of the supported verbs SELECT/INSERT/UPDATE/DELETE.  The
original claim fails without that proviso (`claim_C9_counterexample`):
a fresh builder renders successfully to the empty text, which `from_raw`
rejects with `QueryError("Empty query")`. -/
theorem claim_C9 (b : SqlCreatorAlpha) (t : String) (w : Bool)
    (hr : b.render = Except.ok (t, w))
    (hsemi : ';' ∉ t.data)
    (hverb : statementType t ∈ supportedTypes) :
    ∃ b', SqlCreatorAlpha.from_raw t = Except.ok b' := by
  have hblank := isBlank_false_of_supported t hverb
  have hparse : parseStatements t = [t] := by
    unfold parseStatements
    rw [splitOnSemicolon_no_semi t.data hsemi]
    simp [hblank, strMk_data]
  have hval : SqlCreatorAlpha._validate_query t = Except.ok true := by
    unfold SqlCreatorAlpha._validate_query
    rw [hparse]
    simp [hverb, hblank]
  unfold SqlCreatorAlpha.from_raw
  rw [hval]
  exact ⟨_, rfl⟩

/-- Witness for C9: a fresh `select()` builder renders to
`SELECT * FROM s.t `, and `from_raw` of that text validates. -/
theorem claim_C9_witness :
    ∃ b', SqlCreatorAlpha.from_raw "SELECT * FROM s.t " = Except.ok b' :=
  claim_C9 ((SqlCreatorAlpha.init "s" "t" false).select []) "SELECT * FROM s.t " false
    rfl (by decide) (by decide)
